import Mathlib

/-!
Verification of the in-memory cache manager and NOAA fetch orchestrator of
the `noaa-space-weather-mcp` repository.

The cache (`src/cache/manager.ts`, class `CacheManager`) is a JavaScript
`Map` from string keys to timestamped entries, with lazy TTL expiry on
`get`, capacity-triggered eviction of the oldest-by-`fetchedAt` entry on
`set`, and an expiry-ignoring `getStale` read.  The orchestrator
(`src/noaa/client.ts`, method `NoaaClient.fetchEndpoint`) consults the
cache, performs at most one network fetch, writes back on success and
falls back to stale cache data on failure.

The `Map` is embedded as an insertion-ordered association list (JS `Map`
iteration follows insertion order; `set` of an existing key updates the
value in place, preserving its position).  `Date.now()` becomes an explicit
`now : Nat` argument (milliseconds).  The external `fetch`/`response.json()`
pair becomes a `FetchOutcome` oracle enumerating the four observable
behaviours of one network attempt.
-/

namespace SpaceWeather

/-- `CacheEntry<T>` from `src/noaa/types.ts`. -/
structure CacheEntry (α : Type) where
  data : α
  fetchedAt : Nat
  expiresAt : Nat
  deriving Repr, DecidableEq

/-- `CacheConfig` from `src/noaa/types.ts`. -/
structure CacheConfig where
  ttlSeconds : Nat
  maxEntries : Nat
  deriving Repr, DecidableEq

/-- JS `Map.get`: first (unique) binding of `key`. -/
def mapGet {α : Type} (m : List (String × CacheEntry α)) (key : String) :
    Option (CacheEntry α) :=
  match m with
  | [] => none
  | (k, e) :: rest => if k = key then some e else mapGet rest key

/-- JS `Map.set`: overwrite in place when the key exists (keeping its
insertion position), otherwise append at the end. -/
def mapSet {α : Type} (m : List (String × CacheEntry α)) (key : String)
    (e : CacheEntry α) : List (String × CacheEntry α) :=
  match m with
  | [] => [(key, e)]
  | (k, e') :: rest =>
    if k = key then (k, e) :: rest else (k, e') :: mapSet rest key e

/-- JS `Map.delete`: remove the (unique) binding of `key` if present. -/
def mapDelete {α : Type} (m : List (String × CacheEntry α)) (key : String) :
    List (String × CacheEntry α) :=
  match m with
  | [] => []
  | (k, e) :: rest => if k = key then rest else (k, e) :: mapDelete rest key

/-- The in-memory cache manager: the backing `Map` plus its immutable
configuration (`src/cache/manager.ts`). -/
structure CacheManager (α : Type) where
  memoryCache : List (String × CacheEntry α)
  config : CacheConfig
  deriving Repr, DecidableEq

/-- `CacheManager.get`: absent gives `null`; a present entry with
`entry.expiresAt < Date.now()` is deleted as a side effect and `null` is
returned; otherwise the entry is returned unchanged.  Result pairs the
returned value with the possibly-mutated cache. -/
def CacheManager.get {α : Type} (c : CacheManager α) (key : String)
    (now : Nat) : Option (CacheEntry α) × CacheManager α :=
  match mapGet c.memoryCache key with
  | none => (none, c)
  | some entry =>
    if entry.expiresAt < now then
      (none, { c with memoryCache := mapDelete c.memoryCache key })
    else
      (some entry, c)

/-- The linear scan of `CacheManager.evictOldest`: `oldestTime` starts at
`Number.POSITIVE_INFINITY` (modelled by the accumulator starting at `none`,
against which every finite `fetchedAt` compares smaller) and `oldestKey`
is updated on every strictly smaller `fetchedAt`, so the first-encountered
minimum in iteration order wins. -/
def scanOldest {α : Type} (m : List (String × CacheEntry α)) :
    Option (String × Nat) :=
  m.foldl
    (fun acc kv =>
      match acc with
      | none => some (kv.1, kv.2.fetchedAt)
      | some (ok, ot) =>
        if kv.2.fetchedAt < ot then some (kv.1, kv.2.fetchedAt)
        else some (ok, ot))
    none

/-- `CacheManager.evictOldest`.  The source guards the deletion with
`if (oldestKey)`, a JS truthiness test on `string | null`: it is false both
for `null` (empty map) and for the empty string `""`, so an oldest entry
whose key is `""` is NOT deleted. -/
def evictOldest {α : Type} (m : List (String × CacheEntry α)) :
    List (String × CacheEntry α) :=
  match scanOldest m with
  | none => m
  | some (oldestKey, _) =>
    if oldestKey = "" then m else mapDelete m oldestKey

/-- `CacheManager.set`: computes `ttl = ttlOverride ?? config.ttlSeconds`,
builds the entry with `fetchedAt = now` and `expiresAt = now + ttl * 1000`,
runs `evictOldest` when `size >= maxEntries` (with no regard to whether the
key is already present), then inserts/overwrites. -/
def CacheManager.set {α : Type} (c : CacheManager α) (key : String)
    (data : α) (ttlOverride : Option Nat) (now : Nat) : CacheManager α :=
  let ttl := ttlOverride.getD c.config.ttlSeconds
  let entry : CacheEntry α := ⟨data, now, now + ttl * 1000⟩
  let base :=
    if c.memoryCache.length ≥ c.config.maxEntries then evictOldest c.memoryCache
    else c.memoryCache
  { c with memoryCache := mapSet base key entry }

/-- `CacheManager.invalidate`: `Map.delete` returns whether the key was
present; result pairs that boolean with the updated cache. -/
def CacheManager.invalidate {α : Type} (c : CacheManager α) (key : String) :
    Bool × CacheManager α :=
  ((mapGet c.memoryCache key).isSome,
   { c with memoryCache := mapDelete c.memoryCache key })

/-- `CacheManager.invalidateAll`: `Map.clear`. -/
def CacheManager.invalidateAll {α : Type} (c : CacheManager α) :
    CacheManager α :=
  { c with memoryCache := [] }

/-- Return type of `CacheManager.getStats`. -/
structure CacheStats where
  size : Nat
  maxEntries : Nat
  ttlSeconds : Nat
  deriving Repr, DecidableEq

/-- `CacheManager.getStats`: current entry count plus the configuration. -/
def CacheManager.getStats {α : Type} (c : CacheManager α) : CacheStats :=
  ⟨c.memoryCache.length, c.config.maxEntries, c.config.ttlSeconds⟩

/-- `CacheManager.getStale`: raw `Map.get` with no expiry check and no
deletion (`entry ?? null`). -/
def CacheManager.getStale {α : Type} (c : CacheManager α) (key : String) :
    Option (CacheEntry α) :=
  mapGet c.memoryCache key

/-- `DEFAULT_CACHE_CONFIG` from `src/cache/manager.ts`. -/
def DEFAULT_CACHE_CONFIG : CacheConfig := ⟨300, 100⟩

/-- The shape of the `DATA_TTL` constant object. -/
structure DataTtl where
  XRAY_FLUX : Nat
  KP_INDEX : Nat
  SOLAR_WIND : Nat
  FORECAST : Nat
  HISTORICAL : Nat
  ALERTS : Nat
  deriving Repr, DecidableEq

/-- `DATA_TTL` from `src/cache/manager.ts` (seconds). -/
def DATA_TTL : DataTtl := ⟨60, 180, 60, 3600, 86400, 60⟩

/-- `EndpointKey = keyof typeof NOAA_ENDPOINTS` from `src/noaa/types.ts`. -/
inductive EndpointKey where
  | XRAY_FLUX
  | KP_INDEX
  | SOLAR_WIND_REALTIME
  | SOLAR_WIND_MAG
  | PREDICTED_SFI
  | FORECAST_27DAY
  | SUNSPOT_NUMBER
  | ALERTS
  | PROTON_FLUX
  | DST_INDEX
  | AURORA_FORECAST
  deriving Repr, DecidableEq

/-- The literal text of an endpoint key, as interpolated into the cache key
template `noaa_${endpoint}`. -/
def endpointName : EndpointKey → String
  | .XRAY_FLUX => "XRAY_FLUX"
  | .KP_INDEX => "KP_INDEX"
  | .SOLAR_WIND_REALTIME => "SOLAR_WIND_REALTIME"
  | .SOLAR_WIND_MAG => "SOLAR_WIND_MAG"
  | .PREDICTED_SFI => "PREDICTED_SFI"
  | .FORECAST_27DAY => "FORECAST_27DAY"
  | .SUNSPOT_NUMBER => "SUNSPOT_NUMBER"
  | .ALERTS => "ALERTS"
  | .PROTON_FLUX => "PROTON_FLUX"
  | .DST_INDEX => "DST_INDEX"
  | .AURORA_FORECAST => "AURORA_FORECAST"

/-- The derived cache key `noaa_${endpoint}` of `NoaaClient.fetchEndpoint`. -/
def noaaCacheKey (e : EndpointKey) : String := "noaa_" ++ endpointName e

/-- `NoaaClient.getTtlForEndpoint` (seconds), a direct mirror of the
`switch` in `src/noaa/client.ts`; the `default` arm (reached by `DST_INDEX`
and `AURORA_FORECAST`) returns `DATA_TTL.KP_INDEX`. -/
def getTtlForEndpoint : EndpointKey → Nat
  | .XRAY_FLUX => DATA_TTL.XRAY_FLUX
  | .PROTON_FLUX => DATA_TTL.XRAY_FLUX
  | .KP_INDEX => DATA_TTL.KP_INDEX
  | .SOLAR_WIND_REALTIME => DATA_TTL.SOLAR_WIND
  | .SOLAR_WIND_MAG => DATA_TTL.SOLAR_WIND
  | .FORECAST_27DAY => DATA_TTL.FORECAST
  | .PREDICTED_SFI => DATA_TTL.FORECAST
  | .SUNSPOT_NUMBER => DATA_TTL.HISTORICAL
  | .ALERTS => DATA_TTL.ALERTS
  | _ => DATA_TTL.KP_INDEX

/-- The `source` tag of an `ApiResponse`. -/
inductive Source where
  | cache
  | fetch
  deriving Repr, DecidableEq

/-- `ApiResponse<T>` as produced by `fetchEndpoint`: optional fields are
`Option`s, an absent `error`/`data`/`cachedAt` is `none`. -/
structure ApiResponse (α : Type) where
  success : Bool
  data : Option α
  cachedAt : Option Nat
  source : Source
  error : Option String
  deriving Repr, DecidableEq

/-- The four observable behaviours of the single `fetch(url)` /
`response.json()` attempt inside `fetchEndpoint`:
`ok body` is a 2xx response whose payload parsed to `body`;
`httpError` is a completed response with `response.ok` false;
`fetchException` is a transport-level exception thrown by `fetch` itself;
`parseException` is an exception thrown by `response.json()`.
For the two exception constructors, `msg = some s` models a thrown
`Error` with message `s`, and `msg = none` models a thrown non-`Error`
value (rendered as `"Unknown error"` by the source). -/
inductive FetchOutcome (α : Type) where
  | ok (body : α)
  | httpError (status : Nat) (statusText : String)
  | fetchException (msg : Option String)
  | parseException (msg : Option String)
  deriving Repr, DecidableEq

/-- Result of one `fetchEndpoint` call: the returned `ApiResponse`, the
cache state after the call, and the number of network attempts made. -/
structure FetchResult (α : Type) where
  response : ApiResponse α
  cache : CacheManager α
  attempts : Nat
  deriving Repr, DecidableEq

/-- The advisory error string of the non-2xx stale-fallback branch:
`` `API returned ${response.status}, using stale cache` ``. -/
def staleHttpAdvisory (status : Nat) : String :=
  "API returned " ++ toString status ++ ", using stale cache"

/-- The message of the `Error` thrown on a non-2xx response with no stale
entry: `` `HTTP ${response.status}: ${response.statusText}` ``; it is
caught by the surrounding `try`/`catch` and surfaced as the `error` field. -/
def httpErrorMessage (status : Nat) (statusText : String) : String :=
  "HTTP " ++ toString status ++ ": " ++ statusText

/-- The advisory error string of the catch-block stale fallback:
`` `Fetch failed: ${message}, using stale cache` ``. -/
def staleCatchAdvisory (msg : Option String) : String :=
  "Fetch failed: " ++ msg.getD "Unknown error" ++ ", using stale cache"

/-- The `catch` block of `fetchEndpoint`: re-probe the cache with
`getStale`; on a hit return a degraded success carrying the stale data and
an advisory error string, otherwise return `success: false` with the
exception's message. Neither branch mutates the cache. -/
def catchFallback {α : Type} (c : CacheManager α) (key : String)
    (msg : Option String) : ApiResponse α :=
  match c.getStale key with
  | some stale =>
    ⟨true, some stale.data, some stale.fetchedAt, .cache,
      some (staleCatchAdvisory msg)⟩
  | none => ⟨false, none, none, .fetch, some (msg.getD "Unknown error")⟩

/-- The `try`/`catch` body of `fetchEndpoint` that runs after a cache miss
(or a forced refresh), acting on the post-probe cache state `c1`.  Exactly
one network attempt is made here:
* `ok body`: `cache.set(key, body, ttl)` with
  `ttl = options.ttl ?? getTtlForEndpoint(endpoint)`, return a fresh
  success;
* `httpError`: a `getStale` hit gives a degraded success; a miss throws
  `Error` whose message reaches the catch block (where `getStale` misses
  again, nothing having mutated the cache in between);
* `fetchException`/`parseException`: the catch block runs directly. -/
def fetchMissResult {α : Type} (c1 : CacheManager α) (endpoint : EndpointKey)
    (ttlOpt : Option Nat) (outcome : FetchOutcome α) (now1 : Nat) :
    FetchResult α :=
  let key := noaaCacheKey endpoint
  match outcome with
  | .ok body =>
    let ttl := ttlOpt.getD (getTtlForEndpoint endpoint)
    ⟨⟨true, some body, some now1, .fetch, none⟩,
      c1.set key body (some ttl) now1, 1⟩
  | .httpError status statusText =>
    match c1.getStale key with
    | some stale =>
      ⟨⟨true, some stale.data, some stale.fetchedAt, .cache,
        some (staleHttpAdvisory status)⟩, c1, 1⟩
    | none =>
      ⟨catchFallback c1 key (some (httpErrorMessage status statusText)),
        c1, 1⟩
  | .fetchException msg => ⟨catchFallback c1 key msg, c1, 1⟩
  | .parseException msg => ⟨catchFallback c1 key msg, c1, 1⟩

/-- `NoaaClient.fetchEndpoint`, with `Date.now()` of the initial cache
probe as `now0` and `Date.now()` after the (suspending) network attempt as
`now1`, and the network attempt's behaviour supplied as `outcome`.
When `forceRefresh` is false and the probe finds a live entry, it is
returned with `source: 'cache'` and no network attempt; otherwise the
`try`/`catch` body `fetchMissResult` runs on the post-probe state. -/
def fetchEndpoint {α : Type} (c : CacheManager α) (endpoint : EndpointKey)
    (forceRefresh : Bool) (ttlOpt : Option Nat) (outcome : FetchOutcome α)
    (now0 now1 : Nat) : FetchResult α :=
  let key := noaaCacheKey endpoint
  let probe := if forceRefresh then (none, c) else c.get key now0
  match probe with
  | (some cached, c1) =>
    ⟨⟨true, some cached.data, some cached.fetchedAt, .cache, none⟩, c1, 0⟩
  | (none, c1) => fetchMissResult c1 endpoint ttlOpt outcome now1

/-- The cache state right after `fetchEndpoint`'s initial cache probe:
unchanged under `forceRefresh`, otherwise whatever `get` left behind. -/
def probeState {α : Type} (c : CacheManager α) (e : EndpointKey)
    (fr : Bool) (now0 : Nat) : CacheManager α :=
  if fr then c else (c.get (noaaCacheKey e) now0).2

/-- A degraded stale-fallback success: `success = true`, the stale entry's
data and `fetchedAt`, `source = 'cache'`, and a nonempty advisory error. -/
def staleSuccess {α : Type} (r : ApiResponse α) (entry : CacheEntry α)
    (adv : String) : Prop :=
  r.success = true ∧ r.data = some entry.data
  ∧ r.cachedAt = some entry.fetchedAt ∧ r.source = Source.cache
  ∧ r.error = some adv ∧ adv ≠ ""

/-! ## Concrete stores used by counterexamples and witnesses -/

/-- A store holding one entry for `"k"` whose `expiresAt` is 100. -/
def cacheBoundary : CacheManager Nat := ⟨[("k", ⟨1, 0, 100⟩)], ⟨300, 100⟩⟩

/-- A store at capacity (`maxEntries = 1`) whose single — hence oldest —
entry has the empty string as its key. -/
def evictBugCache : CacheManager Nat := ⟨[("", ⟨0, 0, 60000⟩)], ⟨60, 1⟩⟩

/-- An empty store configured with `maxEntries = 1`. -/
def tinyStore : CacheManager Nat := ⟨[], ⟨60, 1⟩⟩

/-- A store holding one entry for `"noaa_KP_INDEX"` that is already
expired (`expiresAt = 100`) by the time `fetchEndpoint` is called. -/
def staleGone : CacheManager Nat :=
  ⟨[("noaa_KP_INDEX", ⟨7, 0, 100⟩)], ⟨300, 100⟩⟩

def cw1 : CacheManager Nat := ⟨[("a", ⟨5, 0, 10⟩)], ⟨300, 100⟩⟩

def cw2 : CacheManager Nat := ⟨[("b", ⟨6, 0, 20⟩)], ⟨300, 100⟩⟩

def cw6 : CacheManager Nat := ⟨[], ⟨300, 100⟩⟩

def cw7 : CacheManager Nat := ⟨[("p", ⟨1, 0, 50⟩)], ⟨300, 100⟩⟩

def cw7b : CacheManager Nat := ⟨[], ⟨300, 100⟩⟩

/-- A store holding a live entry for the `ALERTS` cache key. -/
def cwStale : CacheManager Nat :=
  ⟨[("noaa_ALERTS", ⟨9, 50, 100⟩)], ⟨300, 100⟩⟩

/-- An empty store with the default configuration. -/
def cwEmpty : CacheManager Nat := ⟨[], ⟨300, 100⟩⟩

/-! ## Basic lemmas about the embedded `Map` operations -/

theorem mapGet_mapSet_self {α : Type} (m : List (String × CacheEntry α))
    (k : String) (e : CacheEntry α) : mapGet (mapSet m k e) k = some e := by
  induction m with
  | nil => simp [mapSet, mapGet]
  | cons hd tl ih =>
    obtain ⟨k', e'⟩ := hd
    by_cases h : k' = k <;> simp [mapSet, mapGet, h, ih]

theorem mapGet_eq_none_of_not_mem {α : Type}
    (m : List (String × CacheEntry α)) (k : String)
    (h : k ∉ m.map Prod.fst) : mapGet m k = none := by
  induction m with
  | nil => rfl
  | cons hd tl ih =>
    obtain ⟨k', e'⟩ := hd
    simp only [List.map_cons, List.mem_cons, not_or] at h
    have h1 : ¬k' = k := fun hh => h.1 hh.symm
    simp [mapGet, h1, ih h.2]

theorem mapGet_mapDelete_self {α : Type}
    (m : List (String × CacheEntry α)) (k : String)
    (h : (m.map Prod.fst).Nodup) : mapGet (mapDelete m k) k = none := by
  induction m with
  | nil => rfl
  | cons hd tl ih =>
    obtain ⟨k', e'⟩ := hd
    simp only [List.map_cons, List.nodup_cons] at h
    by_cases hk : k' = k
    · subst hk
      simp only [mapDelete, if_pos rfl]
      exact mapGet_eq_none_of_not_mem tl k' h.1
    · simp [mapDelete, hk, mapGet, ih h.2]

/-! ## Reduction lemmas for `fetchEndpoint` -/

theorem fetchEndpoint_miss {α : Type} (c : CacheManager α) (e : EndpointKey)
    (fr : Bool) (ttlOpt : Option Nat) (outcome : FetchOutcome α)
    (now0 now1 : Nat)
    (hmiss : fr = true ∨ (c.get (noaaCacheKey e) now0).1 = none) :
    fetchEndpoint c e fr ttlOpt outcome now0 now1
      = fetchMissResult (probeState c e fr now0) e ttlOpt outcome now1 := by
  cases fr with
  | true => simp [fetchEndpoint, probeState]
  | false =>
    have h1 : (c.get (noaaCacheKey e) now0).1 = none := by
      rcases hmiss with h | h
      · exact absurd h (by simp)
      · exact h
    rcases hres : c.get (noaaCacheKey e) now0 with ⟨o, c1⟩
    rw [hres] at h1
    simp only at h1
    subst h1
    simp [fetchEndpoint, probeState, hres]

/-- The advisory strings attached to stale-fallback results are nonempty. -/
theorem staleHttpAdvisory_ne_empty (status : Nat) :
    staleHttpAdvisory status ≠ "" := by
  intro h
  have hl := congrArg String.length h
  simp [staleHttpAdvisory, String.length_append] at hl
  exact absurd hl.1.1 (by decide)

theorem staleCatchAdvisory_ne_empty (msg : Option String) :
    staleCatchAdvisory msg ≠ "" := by
  intro h
  have hl := congrArg String.length h
  simp [staleCatchAdvisory, String.length_append] at hl
  exact absurd hl.1.1 (by decide)

/-! ## Claim C1 -/

/-- Claim C1 counterexample: at the boundary instant `now == expiresAt`
the claim demands that `get` treat the entry as absent, but the source
tests `entry.expiresAt < Date.now()` strictly, so `get` at
`now = expiresAt = 100` still returns the entry and deletes nothing. -/
theorem get_at_boundary_returns_entry :
    mapGet cacheBoundary.memoryCache "k" = some ⟨1, 0, 100⟩
    ∧ (cacheBoundary.get "k" 100).1 = some ⟨1, 0, 100⟩
    ∧ (cacheBoundary.get "k" 100).2 = cacheBoundary := by decide

/-- Claim C1, amended: an entry is expired exactly when `now > expiresAt`
(strict comparison `expiresAt < now`).  For any stored entry with
`expiresAt < now`, `get` deletes it and returns `null` while `getStale`
at the same instant still returns it with its original data; at the
boundary `now == expiresAt`, `get` still returns the entry unchanged. -/
theorem get_expiry_strict_getStale_preserves (α : Type)
    (c c2 : CacheManager α) (k k2 : String) (e e2 : CacheEntry α)
    (now now2 : Nat)
    (hmem : mapGet c.memoryCache k = some e)
    (hexp : e.expiresAt < now)
    (hnodup : (c.memoryCache.map Prod.fst).Nodup)
    (hmem2 : mapGet c2.memoryCache k2 = some e2)
    (hb : now2 = e2.expiresAt) :
    (c.get k now).1 = none
    ∧ (c.get k now).2.memoryCache = mapDelete c.memoryCache k
    ∧ mapGet (c.get k now).2.memoryCache k = none
    ∧ c.getStale k = some e
    ∧ (c2.get k2 now2).1 = some e2
    ∧ (c2.get k2 now2).2 = c2 := by
  subst hb
  have hget : c.get k now
      = (none, { c with memoryCache := mapDelete c.memoryCache k }) := by
    simp [CacheManager.get, hmem, hexp]
  have hget2 : c2.get k2 e2.expiresAt = (some e2, c2) := by
    simp [CacheManager.get, hmem2]
  refine ⟨by simp [hget], by simp [hget], ?_,
    by simp [CacheManager.getStale, hmem], by simp [hget2], by simp [hget2]⟩
  rw [hget]
  exact mapGet_mapDelete_self _ _ hnodup

theorem get_expiry_strict_getStale_preserves_witness :
    (cw1.get "a" 11).1 = none
    ∧ (cw1.get "a" 11).2.memoryCache = mapDelete cw1.memoryCache "a"
    ∧ mapGet (cw1.get "a" 11).2.memoryCache "a" = none
    ∧ cw1.getStale "a" = some ⟨5, 0, 10⟩
    ∧ (cw2.get "b" 20).1 = some ⟨6, 0, 20⟩
    ∧ (cw2.get "b" 20).2 = cw2 :=
  get_expiry_strict_getStale_preserves Nat cw1 cw2 "a" "b" ⟨5, 0, 10⟩
    ⟨6, 0, 20⟩ 11 20 (by decide) (by decide) (by decide) (by decide)
    (by decide)

/-! ## Claim C2 -/

/-- Claim C2 (code bug): at capacity the oldest-by-`fetchedAt` entry is
supposed to be evicted, but the source guards the deletion with the JS
truthiness test `if (oldestKey)`, which is false for the key `""`.  On a
store at capacity whose oldest entry has key `""`, `set` of a new key
removes nothing: both entries survive and the size grows past the cap. -/
theorem evictOldest_skipped_for_empty_string_key :
    evictBugCache.memoryCache.length ≥ evictBugCache.config.maxEntries
    ∧ scanOldest evictBugCache.memoryCache = some ("", 0)
    ∧ (evictBugCache.set "x" 1 none 5).memoryCache.length = 2
    ∧ mapGet (evictBugCache.set "x" 1 none 5).memoryCache ""
        = some ⟨0, 0, 60000⟩ := by decide

/-! ## Claim C5 -/

/-- Claim C5 (code bug): the capacity bound `size <= maxEntries` fails on
a store with `maxEntries = 1` after the two inserts `set "" _` then
`set "x" _`: the eviction that should precede the second insert is
skipped because the oldest key `""` is falsy in the source's
`if (oldestKey)` guard, leaving `getStats().size = 2 > 1`. -/
theorem capacity_bound_violated_via_empty_key :
    tinyStore.config.maxEntries = 1
    ∧ ((tinyStore.set "" 0 none 0).set "x" 1 none 1).getStats.size = 2 := by
  decide

/-! ## Claim C6 -/

/-- Claim C6: immediately after `set k v ttlOverride` (at any read instant
not past the computed expiry), `get k` returns a non-null entry whose
`data` is `v`, with `fetchedAt = now` and
`expiresAt = now + (ttlOverride ?? config.ttlSeconds) * 1000`. -/
theorem set_then_get_returns_data (α : Type) (c : CacheManager α)
    (k : String) (v : α) (ttlOverride : Option Nat) (now now' : Nat)
    (h : now' ≤ now + ttlOverride.getD c.config.ttlSeconds * 1000) :
    ((c.set k v ttlOverride now).get k now').1
      = some ⟨v, now, now + ttlOverride.getD c.config.ttlSeconds * 1000⟩ := by
  have hg : mapGet (c.set k v ttlOverride now).memoryCache k
      = some ⟨v, now, now + ttlOverride.getD c.config.ttlSeconds * 1000⟩ := by
    simp [CacheManager.set, mapGet_mapSet_self]
  simp [CacheManager.get, hg, Nat.not_lt.mpr h]

theorem set_then_get_returns_data_witness :
    ((cw6.set "s" 42 (some 60) 1000).get "s" 61000).1
      = some ⟨42, 1000, 61000⟩ :=
  set_then_get_returns_data Nat cw6 "s" 42 (some 60) 1000 61000 (by decide)

/-! ## Claim C7 -/

/-- Claim C7: `invalidate k` returns `true` exactly when `k` was present
beforehand; a `get k` right after `invalidate k` returns `null`; and on a
store that holds nothing for the probed key, `get` returns `null` and
leaves the store untouched. -/
theorem invalidate_iff_present_and_get_null (α : Type)
    (c c2 : CacheManager α) (k k2 : String) (now now2 : Nat)
    (hnodup : (c.memoryCache.map Prod.fst).Nodup)
    (habs : mapGet c2.memoryCache k2 = none) :
    ((c.invalidate k).1 = true ↔ (mapGet c.memoryCache k).isSome = true)
    ∧ (((c.invalidate k).2).get k now).1 = none
    ∧ (c2.get k2 now2).1 = none
    ∧ (c2.get k2 now2).2 = c2 := by
  refine ⟨by simp [CacheManager.invalidate], ?_,
    by simp [CacheManager.get, habs], by simp [CacheManager.get, habs]⟩
  have hd : mapGet ((c.invalidate k).2).memoryCache k = none := by
    simpa [CacheManager.invalidate] using
      mapGet_mapDelete_self c.memoryCache k hnodup
  simp [CacheManager.get, hd]

theorem invalidate_iff_present_and_get_null_witness :
    ((cw7.invalidate "p").1 = true ↔ (mapGet cw7.memoryCache "p").isSome = true)
    ∧ (((cw7.invalidate "p").2).get "p" 10).1 = none
    ∧ (cw7b.get "q" 10).1 = none
    ∧ (cw7b.get "q" 10).2 = cw7b :=
  invalidate_iff_present_and_get_null Nat cw7 cw7b "p" "q" 10 10
    (by decide) (by decide)

/-! ## Claim C8 -/

/-- Claim C8: after `invalidateAll`, the reported size is 0 and `get`
returns `null` for every key at every instant, with no further mutation. -/
theorem invalidateAll_clears_all (α : Type) (c : CacheManager α)
    (k : String) (now : Nat) :
    (c.invalidateAll).getStats.size = 0
    ∧ ((c.invalidateAll).get k now).1 = none
    ∧ ((c.invalidateAll).get k now).2 = c.invalidateAll := by
  simp [CacheManager.invalidateAll, CacheManager.getStats, CacheManager.get,
    mapGet]

/-! ## Claim C3 -/

theorem fetchMissResult_shape (α : Type) (c1 : CacheManager α)
    (e : EndpointKey) (ttlOpt : Option Nat) (outcome : FetchOutcome α)
    (now1 : Nat) :
    ((fetchMissResult c1 e ttlOpt outcome now1).response.success = true
      ∨ ((fetchMissResult c1 e ttlOpt outcome now1).response.success = false
        ∧ (fetchMissResult c1 e ttlOpt outcome now1).response.error.isSome
            = true))
    ∧ (fetchMissResult c1 e ttlOpt outcome now1).attempts = 1 := by
  cases outcome with
  | ok body => simp [fetchMissResult]
  | httpError status stext =>
    cases hs : c1.getStale (noaaCacheKey e) with
    | some stale => simp [fetchMissResult, hs]
    | none => simp [fetchMissResult, hs, catchFallback]
  | fetchException msg =>
    cases hs : c1.getStale (noaaCacheKey e) with
    | some stale => simp [fetchMissResult, catchFallback, hs]
    | none => simp [fetchMissResult, catchFallback, hs]
  | parseException msg =>
    cases hs : c1.getStale (noaaCacheKey e) with
    | some stale => simp [fetchMissResult, catchFallback, hs]
    | none => simp [fetchMissResult, catchFallback, hs]

/-- Claim C3: every `fetchEndpoint` call — whatever the cache holds and
whatever the single network attempt does (2xx, non-2xx, transport or parse
exception) — resolves to a structured `ApiResponse` that is either a
success or a failure carrying `success = false` and an `error` string, and
makes at most one network attempt. -/
theorem fetchEndpoint_total_no_retry (α : Type) (c : CacheManager α)
    (e : EndpointKey) (fr : Bool) (ttlOpt : Option Nat)
    (outcome : FetchOutcome α) (now0 now1 : Nat) :
    ((fetchEndpoint c e fr ttlOpt outcome now0 now1).response.success = true
      ∨ ((fetchEndpoint c e fr ttlOpt outcome now0 now1).response.success
            = false
        ∧ (fetchEndpoint c e fr ttlOpt outcome now0 now1).response.error.isSome
            = true))
    ∧ (fetchEndpoint c e fr ttlOpt outcome now0 now1).attempts ≤ 1 := by
  cases fr with
  | true =>
    rw [fetchEndpoint_miss c e true ttlOpt outcome now0 now1 (Or.inl rfl)]
    have hs := fetchMissResult_shape α (probeState c e true now0) e ttlOpt
      outcome now1
    exact ⟨hs.1, by rw [hs.2]⟩
  | false =>
    rcases hres : c.get (noaaCacheKey e) now0 with ⟨o, c1⟩
    cases o with
    | some cached => simp [fetchEndpoint, hres]
    | none =>
      rw [fetchEndpoint_miss c e false ttlOpt outcome now0 now1
        (Or.inr (by rw [hres]))]
      have hs := fetchMissResult_shape α (probeState c e false now0) e ttlOpt
        outcome now1
      exact ⟨hs.1, by rw [hs.2]⟩

/-! ## Claim C4 -/

/-- Claim C4 counterexample: the claim promises a stale-fallback success
whenever the cache holds an entry for the derived key, "even an expired
one".  But when `forceRefresh` is false the initial `get` probe lazily
deletes an expired entry, so by the time the failed fetch probes
`getStale` the entry is gone: on a store holding an (expired) entry for
`noaa_KP_INDEX`, a non-2xx fetch yields `success = false`, not a stale
success. -/
theorem stale_entry_lost_before_fallback :
    mapGet staleGone.memoryCache (noaaCacheKey .KP_INDEX) = some ⟨7, 0, 100⟩
    ∧ (100 : Nat) < 200
    ∧ (fetchEndpoint staleGone .KP_INDEX false none
        (.httpError 500 "Internal Server Error") 200 201).response.success
        = false
    ∧ (fetchEndpoint staleGone .KP_INDEX false none
        (.httpError 500 "Internal Server Error") 200 201).response.data
        = none := by decide

/-- Claim C4, amended: if the external retrieval fails and the cache still
holds an entry for the derived key at the stale probe — i.e. after the
initial `get`, which (when `forceRefresh` is false) lazily deletes an
entry that was already expired — then `fetchEndpoint` returns
`success = true` with that entry's data, `source = 'cache'`, `cachedAt`
equal to the entry's `fetchedAt`, and a nonempty advisory error string; if
no entry survives to the stale probe, it returns `success = false` with a
descriptive error string. -/
theorem stale_fallback_on_failure (α : Type) (c c' : CacheManager α)
    (e e' : EndpointKey) (fr fr' : Bool) (ttlOpt ttlOpt' : Option Nat)
    (now0 now1 now0' now1' : Nat) (status status' : Nat)
    (stext stext' : String) (msg msg' : Option String)
    (entry : CacheEntry α)
    (hmiss : fr = true ∨ (c.get (noaaCacheKey e) now0).1 = none)
    (hstale : (probeState c e fr now0).getStale (noaaCacheKey e)
        = some entry)
    (hmiss' : fr' = true ∨ (c'.get (noaaCacheKey e') now0').1 = none)
    (hnone : (probeState c' e' fr' now0').getStale (noaaCacheKey e')
        = none) :
    staleSuccess
      (fetchEndpoint c e fr ttlOpt (.httpError status stext) now0
        now1).response entry (staleHttpAdvisory status)
    ∧ staleSuccess
      (fetchEndpoint c e fr ttlOpt (.fetchException msg) now0
        now1).response entry (staleCatchAdvisory msg)
    ∧ staleSuccess
      (fetchEndpoint c e fr ttlOpt (.parseException msg) now0
        now1).response entry (staleCatchAdvisory msg)
    ∧ ((fetchEndpoint c' e' fr' ttlOpt' (.httpError status' stext') now0'
          now1').response.success = false
      ∧ (fetchEndpoint c' e' fr' ttlOpt' (.httpError status' stext') now0'
          now1').response.error = some (httpErrorMessage status' stext'))
    ∧ ((fetchEndpoint c' e' fr' ttlOpt' (.fetchException msg') now0'
          now1').response.success = false
      ∧ (fetchEndpoint c' e' fr' ttlOpt' (.fetchException msg') now0'
          now1').response.error = some (msg'.getD "Unknown error"))
    ∧ ((fetchEndpoint c' e' fr' ttlOpt' (.parseException msg') now0'
          now1').response.success = false
      ∧ (fetchEndpoint c' e' fr' ttlOpt' (.parseException msg') now0'
          now1').response.error = some (msg'.getD "Unknown error")) := by
  refine ⟨?_, ?_, ?_, ?_, ?_, ?_⟩
  · rw [fetchEndpoint_miss c e fr ttlOpt _ now0 now1 hmiss]
    simp [fetchMissResult, hstale, staleSuccess, staleHttpAdvisory_ne_empty]
  · rw [fetchEndpoint_miss c e fr ttlOpt _ now0 now1 hmiss]
    simp [fetchMissResult, catchFallback, hstale, staleSuccess,
      staleCatchAdvisory_ne_empty]
  · rw [fetchEndpoint_miss c e fr ttlOpt _ now0 now1 hmiss]
    simp [fetchMissResult, catchFallback, hstale, staleSuccess,
      staleCatchAdvisory_ne_empty]
  · rw [fetchEndpoint_miss c' e' fr' ttlOpt' _ now0' now1' hmiss']
    simp [fetchMissResult, catchFallback, hnone]
  · rw [fetchEndpoint_miss c' e' fr' ttlOpt' _ now0' now1' hmiss']
    simp [fetchMissResult, catchFallback, hnone]
  · rw [fetchEndpoint_miss c' e' fr' ttlOpt' _ now0' now1' hmiss']
    simp [fetchMissResult, catchFallback, hnone]

theorem stale_fallback_on_failure_witness :
    staleSuccess
      (fetchEndpoint cwStale .ALERTS true none (.httpError 500 "ISE") 200
        201).response ⟨9, 50, 100⟩ (staleHttpAdvisory 500)
    ∧ staleSuccess
      (fetchEndpoint cwStale .ALERTS true none
        (.fetchException (some "boom")) 200 201).response ⟨9, 50, 100⟩
      (staleCatchAdvisory (some "boom"))
    ∧ staleSuccess
      (fetchEndpoint cwStale .ALERTS true none
        (.parseException (some "boom")) 200 201).response ⟨9, 50, 100⟩
      (staleCatchAdvisory (some "boom"))
    ∧ ((fetchEndpoint cwEmpty .XRAY_FLUX true none (.httpError 404 "NF")
          300 301).response.success = false
      ∧ (fetchEndpoint cwEmpty .XRAY_FLUX true none (.httpError 404 "NF")
          300 301).response.error = some (httpErrorMessage 404 "NF"))
    ∧ ((fetchEndpoint cwEmpty .XRAY_FLUX true none
          (.fetchException (some "down")) 300 301).response.success = false
      ∧ (fetchEndpoint cwEmpty .XRAY_FLUX true none
          (.fetchException (some "down")) 300 301).response.error
          = some ((some "down").getD "Unknown error"))
    ∧ ((fetchEndpoint cwEmpty .XRAY_FLUX true none
          (.parseException (some "down")) 300 301).response.success = false
      ∧ (fetchEndpoint cwEmpty .XRAY_FLUX true none
          (.parseException (some "down")) 300 301).response.error
          = some ((some "down").getD "Unknown error")) :=
  stale_fallback_on_failure Nat cwStale cwEmpty .ALERTS .XRAY_FLUX true true
    none none 200 201 300 301 500 404 "ISE" "NF" (some "boom") (some "down")
    ⟨9, 50, 100⟩ (Or.inl rfl) (by decide) (Or.inl rfl) (by decide)

/-! ## Claim C9 -/

/-- Claim C9: the per-endpoint TTL table used by `fetchEndpoint` maps
`XRAY_FLUX`, `PROTON_FLUX`, `SOLAR_WIND_REALTIME` and `SOLAR_WIND_MAG` to
60 s, `KP_INDEX` to 180 s, `FORECAST_27DAY` and `PREDICTED_SFI` to
3600 s, `SUNSPOT_NUMBER` to 86400 s, `ALERTS` to 60 s, and every other
endpoint (`DST_INDEX`, `AURORA_FORECAST`) to the 180 s default; an
explicit override takes precedence, and on a successful fetch the entry
inserted by `fetchEndpoint` expires exactly
`(override ?? table) * 1000` ms after insertion. -/
theorem ttl_table_and_override (α : Type) :
    getTtlForEndpoint .XRAY_FLUX = 60
    ∧ getTtlForEndpoint .PROTON_FLUX = 60
    ∧ getTtlForEndpoint .SOLAR_WIND_REALTIME = 60
    ∧ getTtlForEndpoint .SOLAR_WIND_MAG = 60
    ∧ getTtlForEndpoint .KP_INDEX = 180
    ∧ getTtlForEndpoint .FORECAST_27DAY = 3600
    ∧ getTtlForEndpoint .PREDICTED_SFI = 3600
    ∧ getTtlForEndpoint .SUNSPOT_NUMBER = 86400
    ∧ getTtlForEndpoint .ALERTS = 60
    ∧ getTtlForEndpoint .DST_INDEX = 180
    ∧ getTtlForEndpoint .AURORA_FORECAST = 180
    ∧ (∀ (o : Nat) (e : EndpointKey),
        (some o).getD (getTtlForEndpoint e) = o)
    ∧ ∀ (c : CacheManager α) (e : EndpointKey) (ttlOpt : Option Nat)
        (v : α) (now0 now1 : Nat),
        mapGet
            (fetchEndpoint c e true ttlOpt (.ok v) now0
              now1).cache.memoryCache (noaaCacheKey e)
          = some ⟨v, now1, now1 + ttlOpt.getD (getTtlForEndpoint e) * 1000⟩
    := by
  refine ⟨rfl, rfl, rfl, rfl, rfl, rfl, rfl, rfl, rfl, rfl, rfl,
    fun o e => rfl, ?_⟩
  intro c e ttlOpt v now0 now1
  rw [fetchEndpoint_miss c e true ttlOpt _ now0 now1 (Or.inl rfl)]
  simp [fetchMissResult, CacheManager.set, mapGet_mapSet_self]

/-! ## Claim C10 -/

theorem fetchEndpoint_cache_of_non_ok (α : Type) (c : CacheManager α)
    (e : EndpointKey) (fr : Bool) (ttlOpt : Option Nat)
    (outcome : FetchOutcome α) (now0 now1 : Nat)
    (hno : (fetchMissResult (probeState c e fr now0) e ttlOpt outcome
        now1).cache = probeState c e fr now0) :
    (fetchEndpoint c e fr ttlOpt outcome now0 now1).cache
      = probeState c e fr now0 := by
  cases fr with
  | true =>
    rw [fetchEndpoint_miss c e true ttlOpt outcome now0 now1 (Or.inl rfl)]
    exact hno
  | false =>
    rcases hres : c.get (noaaCacheKey e) now0 with ⟨o, c1⟩
    cases o with
    | some cached => simp [fetchEndpoint, hres, probeState]
    | none =>
      rw [fetchEndpoint_miss c e false ttlOpt outcome now0 now1
        (Or.inr (by rw [hres]))]
      exact hno

/-- Claim C10: when the retrieval does not complete successfully (non-2xx,
transport exception or parse exception), `fetchEndpoint` never inserts or
overwrites a cache entry: the final cache state equals the state right
after the initial probe, and that probe itself either leaves the store
untouched or merely lazily deletes an already-expired entry under the
probed key. -/
theorem failing_fetch_frame (α : Type) (c : CacheManager α)
    (e : EndpointKey) (fr : Bool) (ttlOpt : Option Nat)
    (now0 now1 status : Nat) (stext : String) (msg : Option String) :
    (fetchEndpoint c e fr ttlOpt (.httpError status stext) now0 now1).cache
        = probeState c e fr now0
    ∧ (fetchEndpoint c e fr ttlOpt (.fetchException msg) now0 now1).cache
        = probeState c e fr now0
    ∧ (fetchEndpoint c e fr ttlOpt (.parseException msg) now0 now1).cache
        = probeState c e fr now0
    ∧ ((c.get (noaaCacheKey e) now0).2 = c
      ∨ ∃ en, mapGet c.memoryCache (noaaCacheKey e) = some en
          ∧ en.expiresAt < now0
          ∧ (c.get (noaaCacheKey e) now0).2
            = { c with
                memoryCache := mapDelete c.memoryCache (noaaCacheKey e) })
    := by
  refine ⟨?_, ?_, ?_, ?_⟩
  · refine fetchEndpoint_cache_of_non_ok α c e fr ttlOpt _ now0 now1 ?_
    cases hs : (probeState c e fr now0).getStale (noaaCacheKey e) <;>
      simp [fetchMissResult, hs]
  · exact fetchEndpoint_cache_of_non_ok α c e fr ttlOpt _ now0 now1
      (by simp [fetchMissResult])
  · exact fetchEndpoint_cache_of_non_ok α c e fr ttlOpt _ now0 now1
      (by simp [fetchMissResult])
  · cases hm : mapGet c.memoryCache (noaaCacheKey e) with
    | none => exact Or.inl (by simp [CacheManager.get, hm])
    | some en =>
      by_cases hlt : en.expiresAt < now0
      · exact Or.inr ⟨en, rfl, hlt, by simp [CacheManager.get, hm, hlt]⟩
      · exact Or.inl (by simp [CacheManager.get, hm, hlt])

end SpaceWeather
